import Mathlib

/-
Shallow embedding of the `go-monitoring` repository: the SSL-certificate
monitoring check (certificate getters for direct TLS, SMTP STARTTLS and
ManageSieve STARTTLS, command-line flag validation, SAN / CN name checks and
expiry-threshold classification) together with the supporting `plugin` and
`perfdata` packages. Go strings are modelled as Lean strings, Go `int` and
`time.Duration` (int64 nanoseconds) as `Int`, fallible operations as
`Option`/`Except`, and a Go `panic` as a distinguished error value.
-/

/-- ASCII case folding over the characters of a string. This models Go's
`strings.ToLower` on the ASCII inputs handled by the checker (host names and
rendered subject strings); `Char.toLower` lowers exactly the ASCII letters. -/
def strToLower (s : String) : String := ⟨s.data.map Char.toLower⟩

/-- Models Go's `strings.HasPrefix`: the first string starts with the second. -/
def strStartsWith (s pre : String) : Bool := pre.data.isPrefixOf s.data

/-- Models Go's byte-slicing `line[n:]` for a line whose first `n` characters
are ASCII (as guaranteed by the prefix tests guarding its uses). -/
def strDrop (s : String) (n : Nat) : String := ⟨s.data.drop n⟩

/-- Plugin exit statuses (`plugin.go`: `OK`, `WARNING`, `CRITICAL`, `UNKNOWN`
declared through `iota`, in this order). -/
inductive Status where
  | OK
  | WARNING
  | CRITICAL
  | UNKNOWN
  deriving DecidableEq

/-- Numeric value of a status, following the `iota` declaration order in
`plugin.go`; this integer is used as the process exit code. -/
def Status.toCode : Status → Nat
  | .OK => 0
  | .WARNING => 1
  | .CRITICAL => 2
  | .UNKNOWN => 3

/-- String representation of a status (`Status.String()` in `plugin.go`,
which renders `CRITICAL` as "ERROR"). -/
def Status.render : Status → String
  | .OK => "OK"
  | .WARNING => "WARNING"
  | .CRITICAL => "ERROR"
  | .UNKNOWN => "UNKNOWN"

/-- Units of measurement from `perfdata.go`. -/
inductive UnitOfMeasurement where
  | UOM_NONE
  | UOM_SECONDS
  | UOM_PERCENT
  | UOM_BYTES
  | UOM_KILOBYTES
  | UOM_MEGABYTES
  | UOM_GIGABYTES
  | UOM_TERABYTES
  | UOM_COUNTER
  deriving DecidableEq

/-- Unit suffix strings (`UnitOfMeasurement.String()` in `perfdata.go`). -/
def UnitOfMeasurement.render : UnitOfMeasurement → String
  | .UOM_NONE => ""
  | .UOM_SECONDS => "s"
  | .UOM_PERCENT => "%"
  | .UOM_BYTES => "B"
  | .UOM_KILOBYTES => "KB"
  | .UOM_MEGABYTES => "MB"
  | .UOM_GIGABYTES => "GB"
  | .UOM_TERABYTES => "TB"
  | .UOM_COUNTER => "c"

/-- All characters of the list are decimal digits. -/
def allDigits (l : List Char) : Bool := l.all Char.isDigit

/-- Body of the perfdata value-check regular expression from `perfdata.go`
(`vcRegexp` without the optional leading minus sign): it accepts
`0(\.\d*)?`, `[1-9]\d*(\.\d*)?` and `\.\d+`, anchored at both ends. -/
def valueBodyMatches : List Char → Bool
  | [] => false
  | '.' :: ds => !ds.isEmpty && allDigits ds
  | '0' :: rest =>
    match rest with
    | [] => true
    | '.' :: ds => allDigits ds
    | _ => false
  | c :: rest =>
    if c.isDigit then
      match rest.dropWhile Char.isDigit with
      | [] => true
      | '.' :: ds => allDigits ds
      | _ => false
    else false

/-- The compiled value-check regular expression `valueCheck` of `perfdata.go`:
an optional minus sign followed by a decimal literal. -/
def valueCheck (s : String) : Bool :=
  match s.data with
  | '-' :: l => valueBodyMatches l
  | l => valueBodyMatches l

/-- Performance data range (`PerfDataRange` in `perfdata.go`). The Go field
`end` is a Lean keyword and is called `stop` here. -/
structure PerfDataRange where
  start : String
  stop : String
  inside : Bool
  deriving DecidableEq

/-- `PDRMax` from `perfdata.go`: builds the range with start `"0"` and the
given maximum. The Go function panics when the maximum fails the value check;
the panic is modelled by `none`. -/
def PDRMax (max : String) : Option PerfDataRange :=
  if !valueCheck max then none
  else some { start := "0", stop := max, inside := false }

/-- `PerfDataRange.String()` from `perfdata.go`: an empty start renders as
`~`, the start `"0"` is omitted, and an `inside` range is prefixed with `@`. -/
def PerfDataRange.render (r : PerfDataRange) : String :=
  let start := if r.start = "" then "~" else if r.start = "0" then "" else r.start
  let inside := if r.inside then "@" else ""
  inside ++ start ++ ":" ++ r.stop

/-- Bit for a set warning range (`PDAT_WARN` in `perfdata.go`). -/
def PDAT_WARN : Nat := 1

/-- Bit for a set critical range (`PDAT_CRIT` in `perfdata.go`). -/
def PDAT_CRIT : Nat := 2

/-- Bit for a set minimum (`PDAT_MIN` in `perfdata.go`). -/
def PDAT_MIN : Nat := 4

/-- Bit for a set maximum (`PDAT_MAX` in `perfdata.go`). -/
def PDAT_MAX : Nat := 8

/-- Performance data record (`PerfData` in `perfdata.go`). -/
structure PerfData where
  label : String
  units : UnitOfMeasurement
  bits : Nat
  value : String
  warn : PerfDataRange
  crit : PerfDataRange
  min : String
  max : String
  deriving DecidableEq

/-- `perfdata.New`: builds a record with the given label, units and value; an
empty value is stored as `"U"`, and a non-empty value failing the value check
makes the Go code panic (modelled by `none`). Unset ranges hold the Go zero
value of `PerfDataRange`. -/
def PerfData.new (label : String) (units : UnitOfMeasurement) (value : String) :
    Option PerfData :=
  if value != "" && !valueCheck value then none
  else some { label := label, units := units, bits := 0,
              value := if value = "" then "U" else value,
              warn := ⟨"", "", false⟩, crit := ⟨"", "", false⟩,
              min := "", max := "" }

/-- `PerfData.SetWarn` from `perfdata.go`. -/
def PerfData.setWarn (d : PerfData) (r : PerfDataRange) : PerfData :=
  { d with warn := r, bits := d.bits ||| PDAT_WARN }

/-- `PerfData.SetCrit` from `perfdata.go`. -/
def PerfData.setCrit (d : PerfData) (r : PerfDataRange) : PerfData :=
  { d with crit := r, bits := d.bits ||| PDAT_CRIT }

/-- `PerfData.String()` from `perfdata.go`: the label (quoted when it contains
a space, quote, equals sign or double quote, with quotes doubled), `=`, the
value and unit, then the warning range, critical range, minimum and maximum
separated by semicolons, each blank when its bit is unset. -/
def PerfData.render (d : PerfData) : String :=
  let needsQuotes := d.label.data.any (fun c => c = ' ' || c = '\'' || c = '=' || c = '"')
  let quoted := String.mk (d.label.data.flatMap (fun c => if c = '\'' then ['\'', '\''] else [c]))
  (if needsQuotes then "'" else "") ++ quoted ++ (if needsQuotes then "'" else "") ++
    "=" ++ d.value ++ d.units.render ++ ";" ++
    (if d.bits &&& PDAT_WARN != 0 then d.warn.render else "") ++ ";" ++
    (if d.bits &&& PDAT_CRIT != 0 then d.crit.render else "") ++ ";" ++
    (if d.bits &&& PDAT_MIN != 0 then d.min else "") ++ ";" ++
    (if d.bits &&& PDAT_MAX != 0 then d.max else "")

/-- Monitoring plugin state (`Plugin` in `plugin.go`). The `extraText` list
models the `container/list` of extra output lines; the performance data map is
modelled as a list of records in insertion order. -/
structure Plugin where
  name : String
  status : Status
  message : String
  extraText : List String
  perfData : List PerfData
  deriving DecidableEq

/-- `plugin.New`: a fresh plugin starts in the UNKNOWN state with the message
"no status set". -/
def Plugin.new (name : String) : Plugin :=
  { name := name, status := .UNKNOWN, message := "no status set",
    extraText := [], perfData := [] }

/-- `Plugin.SetState` from `plugin.go`. -/
def Plugin.setState (p : Plugin) (status : Status) (message : String) : Plugin :=
  { p with status := status, message := message }

/-- `Plugin.AddLine` from `plugin.go`. -/
def Plugin.addLine (p : Plugin) (line : String) : Plugin :=
  { p with extraText := p.extraText ++ [line] }

/-- `Plugin.AddPerfData` from `plugin.go`: the Go code panics when a record
with the same label was already added (modelled by `none`). -/
def Plugin.addPerfData (p : Plugin) (pd : PerfData) : Option Plugin :=
  if p.perfData.any (fun q => q.label == pd.label) then none
  else some { p with perfData := p.perfData ++ [pd] }

/-- `Plugin.Done` from `plugin.go`: renders the one-line report (name, status,
message, optional performance data after a pipe separator, then the extra text
lines) and exits the process with `int(p.status)`. The returned pair is the
printed text and the exit code. -/
def Plugin.done (p : Plugin) : String × Nat :=
  let base := p.name ++ " " ++ p.status.render ++ ": " ++ p.message
  let withPerf :=
    if p.perfData.isEmpty then base
    else base ++ " | " ++ String.intercalate ", " (p.perfData.map PerfData.render)
  (withPerf ++ String.join (p.extraText.map (fun l => "\n" ++ l)), p.status.toCode)

/-- Parsed command-line flags (`programFlags` in the check_ssl_certificate
command). The flag defaults are: empty hostname, port `-1`, thresholds `-1`
(meaning "not supplied"), `ignoreCnOnly` false, no extra names, empty
StartTLS protocol name. -/
structure ProgramFlags where
  hostname : String
  port : Int
  warn : Int
  crit : Int
  ignoreCnOnly : Bool
  extraNames : List String
  startTLS : String
  deriving DecidableEq

/-- The parts of an `x509.Certificate` read by the checker: the SAN DNS names,
the subject distinguished name as rendered by `Subject.String()`, and the
`NotAfter` deadline as nanoseconds since the epoch. -/
structure Certificate where
  dnsNames : List String
  subject : String
  notAfterNs : Int
  deriving DecidableEq

/-- Keys of the `certGetters` map: the empty name (direct TLS), `smtp` and
`sieve`. -/
def certGetterNames : List String := ["", "smtp", "sieve"]

/-- `checkProgram.checkFlags`: validates the hostname, port, thresholds and
StartTLS protocol name in this order, setting an UNKNOWN state and returning
`false` on the first failure; on success the hostname is lowercased. Returns
the updated flags and plugin alongside the verdict. -/
def checkFlags (flags : ProgramFlags) (p : Plugin) : Bool × ProgramFlags × Plugin :=
  if flags.hostname = "" then
    (false, flags, p.setState .UNKNOWN "no hostname specified")
  else if flags.port < 1 ∨ 65535 < flags.port then
    (false, flags, p.setState .UNKNOWN "invalid or missing port number")
  else if flags.warn ≠ -1 ∧ flags.crit ≠ -1 ∧ flags.warn ≤ flags.crit then
    (false, flags, p.setState .UNKNOWN "nonsensical thresholds")
  else if !certGetterNames.contains flags.startTLS then
    (false, flags, p.setState .UNKNOWN ("unsupported StartTLS protocol " ++ flags.startTLS))
  else
    (true, { flags with hostname := strToLower flags.hostname }, p)

/-- The loop body of `checkProgram.checkHostName`: the requested name is
compared for equality against each lowercased SAN entry. -/
def nameFound (cert : Certificate) (name : String) : Bool :=
  cert.dnsNames.any (fun n => strToLower n == name)

/-- `checkProgram.checkHostName`: when the name is not found among the
(lowercased) SAN entries, a finding line is appended to the plugin output and
`false` is returned. -/
def checkHostName (cert : Certificate) (p : Plugin) (name : String) : Bool × Plugin :=
  if nameFound cert name then (true, p)
  else (false, p.addLine ("missing DNS name " ++ name ++ " in certificate"))

/-- `checkProgram.checkSANlessCertificate`: a SAN-less certificate is WARNING
unless the `ignore-cn-only` flag is set and no extra names were requested; a
permitted fallback compares the lowercased subject string against the leading
`cn=<hostname>,` prefix, yielding CRITICAL on mismatch. -/
def checkSANlessCertificate (flags : ProgramFlags) (cert : Certificate) (p : Plugin) :
    Bool × Plugin :=
  if !flags.ignoreCnOnly || !flags.extraNames.isEmpty then
    (false, p.setState .WARNING "certificate doesn\x27t have SAN domain names")
  else
    let dn := strToLower cert.subject
    if !strStartsWith dn ("cn=" ++ flags.hostname ++ ",") then
      (false, p.setState .CRITICAL "incorrect certificate CN")
    else
      (true, p)

/-- The `for name := range extraNames` loop of `checkProgram.checkNames`:
`ok = checkHostName(name) && ok`, so every name is checked (the call is
evaluated before the conjunction) and all findings are recorded. -/
def checkExtraNames (cert : Certificate) (names : List String) (p : Plugin) (ok : Bool) :
    Bool × Plugin :=
  match names with
  | [] => (ok, p)
  | name :: rest =>
    let r := checkHostName cert p name
    checkExtraNames cert rest r.2 (r.1 && ok)

/-- `checkProgram.checkNames`: with an empty SAN list defers to
`checkSANlessCertificate`; otherwise checks the primary hostname and every
extra name, and sets CRITICAL when any of them was missing. -/
def checkNames (flags : ProgramFlags) (cert : Certificate) (p : Plugin) : Bool × Plugin :=
  if cert.dnsNames.isEmpty then checkSANlessCertificate flags cert p
  else
    let r0 := checkHostName cert p flags.hostname
    let r1 := checkExtraNames cert flags.extraNames r0.2 r0.1
    if !r1.1 then (false, r1.2.setState .CRITICAL "names missing from SAN domain names")
    else (true, r1.2)

/-- `checkProgram.checkCertificateExpiry`: a non-positive number of days left
is CRITICAL "certificate expired"; otherwise the critical threshold is tested
before the warning threshold, a threshold being active only when positive. -/
def checkCertificateExpiry (flags : ProgramFlags) (tlDays : Int) : Status × String :=
  if tlDays ≤ 0 then (.CRITICAL, "certificate expired")
  else
    let stateAndLimit : Status × String :=
      if 0 < flags.crit ∧ tlDays ≤ flags.crit then
        (.CRITICAL, " (<= " ++ toString flags.crit ++ ")")
      else if 0 < flags.warn ∧ tlDays ≤ flags.warn then
        (.WARNING, " (<= " ++ toString flags.warn ++ ")")
      else (.OK, "")
    (stateAndLimit.1,
     "certificate will expire in " ++ toString tlDays ++ " days" ++ stateAndLimit.2)

/-- `checkProgram.setPerfData`: builds the "validity" performance record for
the number of days left and attaches `PDRMax` ranges for the critical and
warning thresholds when they are positive. Panics of the underlying perfdata
constructors propagate as `none`. -/
def setPerfData (flags : ProgramFlags) (tlDays : Int) : Option PerfData := do
  let pdat0 ← PerfData.new "validity" .UOM_NONE (toString tlDays)
  let pdat1 ←
    if 0 < flags.crit then do
      let r ← PDRMax (toString flags.crit)
      pure (pdat0.setCrit r)
    else pure pdat0
  if 0 < flags.warn then do
    let r ← PDRMax (toString flags.warn)
    pure (pdat1.setWarn r)
  else pure pdat1

/-- Two's-complement wraparound of signed 64-bit integer arithmetic: reduces
an integer into the int64 range the way a Go `int64` addition overflows. -/
def wrap64 (n : Int) : Int :=
  (n + 9223372036854775808) % 18446744073709551616 - 9223372036854775808

/-- The days-left computation in `checkProgram.runCheck`:
`int((timeLeft + 86399*time.Second) / (24 * time.Hour))` where `timeLeft` is
the remaining duration in nanoseconds. `time.Duration` is an `int64`
(`time.Time.Sub` saturates, so `timeLeft` itself is always in range), the
addition wraps around on int64 overflow, and Go duration division truncates
toward zero, which is `Int.tdiv` (the division cannot overflow for this
divisor, and `int(...)` is the identity on 64-bit platforms). -/
def tlDaysOf (timeLeftNs : Int) : Int :=
  Int.tdiv (wrap64 (timeLeftNs + 86399 * 1000000000)) (86400 * 1000000000)

/-- Mathematical ceiling division, following the specification's words
`daysRemaining = ceil((notAfter - now) / 1 day)`: the negated floor of the
negated quotient (`Int` division by a positive divisor is floor division). -/
def ceilDivSpec (a b : Int) : Int := -((-a) / b)

/-- A Go runtime or library panic reachable in the modelled code. A panic
unwinds the goroutine, running deferred calls on the way. -/
inductive GoPanic where
  | indexOutOfRange
  | invalidPerfDataValue
  | duplicatePerfData
  deriving DecidableEq

/-- The final step shared by all three certificate getters:
`ConnectionState().PeerCertificates[0]` after a successful handshake. Indexing
an empty slice panics at runtime. -/
def extractPeerCertificate (peerCertificates : List Certificate) :
    Except GoPanic Certificate :=
  match peerCertificates with
  | [] => .error .indexOutOfRange
  | c :: _ => .ok c

/-- Outcome of `checkProgram.getCertificate` as seen by `runCheck`: either
some step before certificate extraction failed with a Go error, or the
handshake succeeded and the peer presented a (possibly empty) certificate
list. -/
inductive FetchResult where
  | failure (msg : String)
  | presented (peerCertificates : List Certificate)
  deriving DecidableEq

/-- `checkProgram.runCheck`: a fetch error sets UNKNOWN; otherwise the
certificate is extracted (panicking on an empty list), the names are checked,
and on success the expiry classification and performance data are computed
from the days left. The result is the plugin state when `runCheck` returns or
is unwound, together with the panic in flight, if any: a panic aborts the
remaining statements but leaves the state updates already made. -/
def runCheck (flags : ProgramFlags) (p : Plugin) (fetch : FetchResult) (nowNs : Int) :
    Plugin × Option GoPanic :=
  match fetch with
  | .failure msg => (p.setState .UNKNOWN msg, none)
  | .presented certs =>
    match extractPeerCertificate certs with
    | .error gp => (p, some gp)
    | .ok cert =>
      let r := checkNames flags cert p
      if r.1 then
        let tlDays := tlDaysOf (cert.notAfterNs - nowNs)
        let sm := checkCertificateExpiry flags tlDays
        let p2 := r.2.setState sm.1 sm.2
        match setPerfData flags tlDays with
        | none => (p2, some .invalidPerfDataValue)
        | some pd =>
          match p2.addPerfData pd with
          | none => (p2, some .duplicatePerfData)
          | some p3 => (p3, none)
      else (r.2, none)

/-- `main` including its deferred `close()`: flag validation runs first and
`runCheck` (whose first step dials the network) runs only when it succeeded.
The deferred `close()` then calls `Plugin.Done` in every case — deferred
calls also run while a panic is unwinding, and `os.Exit` inside `Done`
terminates the process before the runtime's crash report — so the process
always prints the report for the current plugin state and exits with its
status code. Returns the printed report with the exit code, whether the
network fetch was attempted, and the panic that was unwinding, if any. -/
def mainCheck (flags : ProgramFlags) (fetch : FetchResult) (nowNs : Int) :
    (String × Nat) × Bool × Option GoPanic :=
  let r := checkFlags flags (Plugin.new "Certificate check")
  if r.1 then
    let rc := runCheck r.2.1 r.2.2 fetch nowNs
    (rc.1.done, true, rc.2)
  else (r.2.2.done, false, none)

/-- A parsed SMTP response line: status code and text (`net/textproto`). -/
structure Response where
  code : Nat
  text : String
  deriving DecidableEq

/-- The acceptance rule of `net/textproto.ReadResponse`: a one-digit
expectation matches on the first digit, a two-digit expectation on the first
two, a three-digit expectation exactly, and a non-positive expectation always
matches. -/
def respMatches (expectCode code : Nat) : Bool :=
  if 1 ≤ expectCode ∧ expectCode < 10 then code / 100 == expectCode
  else if 10 ≤ expectCode ∧ expectCode < 100 then code / 10 == expectCode
  else if 100 ≤ expectCode ∧ expectCode < 1000 then code == expectCode
  else true

/-- `net/textproto.ReadResponse` on an already-parsed response: an unexpected
status code yields a protocol error carrying the offending response. -/
def readResponse (expectCode : Nat) (r : Response) : Except Response Response :=
  if respMatches expectCode r.code then .ok r else .error r

/-- The preamble of `smtpGetter.getCertificate`: read the greeting expecting
220, send `HELO localhost` expecting 250, send `STARTTLS` expecting 220, and
only then hand the socket to the TLS layer. The first component lists the
commands sent; the second is `ok` exactly when the handshake is reached, and
otherwise carries the offending response. -/
def smtpPreamble (greeting helo starttls : Response) :
    List String × Except Response Unit :=
  match readResponse 220 greeting with
  | .error e => ([], .error e)
  | .ok _ =>
    match readResponse 250 helo with
    | .error e => (["HELO localhost"], .error e)
    | .ok _ =>
      match readResponse 220 starttls with
      | .error e => (["HELO localhost", "STARTTLS"], .error e)
      | .ok _ => (["HELO localhost", "STARTTLS"], .ok ())

/-- `sieveGetter.waitOK`: scan the response lines; a line starting with `OK`
is success, `NO ` or `BYE ` is an error carrying the rest of the line, other
lines are skipped. When the stream ends, the scanner's error is returned —
which is `none` (success) on a plain EOF. -/
def waitOK (lines : List String) (streamErr : Option String) : Except String Unit :=
  match lines with
  | [] =>
    match streamErr with
    | none => .ok ()
    | some e => .error e
  | line :: rest =>
    if strStartsWith line "OK" then .ok ()
    else if strStartsWith line "NO " then .error (strDrop line 3)
    else if strStartsWith line "BYE " then .error (strDrop line 4)
    else waitOK rest streamErr

/-- The preamble of `sieveGetter.getCertificate`: wait for the greeting, then
`runCmd` sends `STARTTLS` and waits again; only then is the TLS handshake
started. Each stage is described by its response lines and its end-of-stream
scanner error. The first component lists the commands sent; the second is
`ok` exactly when the handshake is reached. -/
def sievePreamble (greetingLines starttlsLines : List String)
    (greetingErr starttlsErr : Option String) :
    List String × Except String Unit :=
  match waitOK greetingLines greetingErr with
  | .error e => ([], .error e)
  | .ok _ =>
    match waitOK starttlsLines starttlsErr with
    | .error e => (["STARTTLS"], .error e)
    | .ok _ => (["STARTTLS"], .ok ())

/-- The claim's reading of the SAN matching rule in C3: the requested name
compared case-insensitively against each SAN entry. -/
def specNameFoundCaseInsensitive (cert : Certificate) (name : String) : Bool :=
  cert.dnsNames.any (fun n => strToLower n == strToLower name)

/-- The finding lines produced by `checkHostName` for the names of a request
list that are not found in the certificate. -/
def missingLines (cert : Certificate) (names : List String) : List String :=
  (names.filter (fun n => !nameFound cert n)).map
    (fun n => "missing DNS name " ++ n ++ " in certificate")

/-- Claim C1: the expiry classification follows the precedence: non-positive
days left is CRITICAL "certificate expired" regardless of thresholds; then a
configured (positive) critical threshold at or above the days left gives
CRITICAL; then a configured warning threshold gives WARNING; otherwise OK.
With warningDays 10 and criticalDays 5: 5 days gives CRITICAL, 6 gives
WARNING, 11 gives OK. -/
theorem c1_expiry_classification :
    (∀ (flags : ProgramFlags) (tlDays : Int), tlDays ≤ 0 →
      checkCertificateExpiry flags tlDays = (.CRITICAL, "certificate expired")) ∧
    (∀ (flags : ProgramFlags) (tlDays : Int), 0 < tlDays →
      0 < flags.crit → tlDays ≤ flags.crit →
      (checkCertificateExpiry flags tlDays).1 = .CRITICAL) ∧
    (∀ (flags : ProgramFlags) (tlDays : Int), 0 < tlDays →
      ¬(0 < flags.crit ∧ tlDays ≤ flags.crit) → 0 < flags.warn → tlDays ≤ flags.warn →
      (checkCertificateExpiry flags tlDays).1 = .WARNING) ∧
    (∀ (flags : ProgramFlags) (tlDays : Int), 0 < tlDays →
      ¬(0 < flags.crit ∧ tlDays ≤ flags.crit) → ¬(0 < flags.warn ∧ tlDays ≤ flags.warn) →
      (checkCertificateExpiry flags tlDays).1 = .OK) ∧
    (∀ flags : ProgramFlags, flags.warn = 10 → flags.crit = 5 →
      (checkCertificateExpiry flags 5).1 = .CRITICAL ∧
      (checkCertificateExpiry flags 6).1 = .WARNING ∧
      (checkCertificateExpiry flags 11).1 = .OK) := by
  refine ⟨?_, ?_, ?_, ?_, ?_⟩
  · intro flags d h
    simp [checkCertificateExpiry, h]
  · intro flags d h0 hc hd
    simp only [checkCertificateExpiry]
    rw [if_neg (by omega), if_pos ⟨hc, hd⟩]
  · intro flags d h0 hnc hw hd
    simp only [checkCertificateExpiry]
    rw [if_neg (by omega), if_neg hnc, if_pos ⟨hw, hd⟩]
  · intro flags d h0 hnc hnw
    simp only [checkCertificateExpiry]
    rw [if_neg (by omega), if_neg hnc, if_neg hnw]
  · intro flags hw hc
    refine ⟨?_, ?_, ?_⟩ <;>
      · simp only [checkCertificateExpiry, hw, hc]
        norm_num

/-- Witness for C1 at the configuration from the claim (warn 10, crit 5). -/
theorem c1_expiry_classification_witness :
    checkCertificateExpiry ⟨"h", 443, 10, 5, false, [], ""⟩ 0 =
      (.CRITICAL, "certificate expired") ∧
    (checkCertificateExpiry ⟨"h", 443, 10, 5, false, [], ""⟩ 5).1 = .CRITICAL ∧
    (checkCertificateExpiry ⟨"h", 443, 10, 5, false, [], ""⟩ 6).1 = .WARNING ∧
    (checkCertificateExpiry ⟨"h", 443, 10, 5, false, [], ""⟩ 11).1 = .OK :=
  ⟨c1_expiry_classification.1 ⟨"h", 443, 10, 5, false, [], ""⟩ 0 (by norm_num),
   (c1_expiry_classification.2.2.2.2 ⟨"h", 443, 10, 5, false, [], ""⟩ rfl rfl).1,
   (c1_expiry_classification.2.2.2.2 ⟨"h", 443, 10, 5, false, [], ""⟩ rfl rfl).2.1,
   (c1_expiry_classification.2.2.2.2 ⟨"h", 443, 10, 5, false, [], ""⟩ rfl rfl).2.2⟩

/-- Cast lemma: Go truncated division on non-negative operands is plain
natural division. -/
theorem tdiv_ofNat (m n : Nat) : (m : Int).tdiv (n : Int) = ((m / n : Nat) : Int) := rfl

/-- An int64 addition that does not overflow is the plain addition. -/
theorem wrap64_of_small (n : Int) (h0 : 0 ≤ n) (h1 : n < 9223372036854775808) :
    wrap64 n = n := by
  unfold wrap64
  omega

/-- Claim C2 (amended): the days-left computation adds 86399 seconds to the
remaining duration and divides by 24 hours, with int64 wraparound on the
addition and division truncating toward zero. When the remaining duration is
a non-negative whole number of seconds small enough that the addition does
not overflow int64 (at most 9223285637 seconds, about 292 years) this equals
`ceil((notAfter - now) / 1 day)`; in particular a certificate expiring in
exactly 24h yields 1, and one expiring in 1s yields 1. Outside that range
the computation deviates from the ceiling: sub-second or sufficiently
negative residuals truncate toward zero instead of up (see the
counterexample), and at 9223372036 whole seconds the int64 addition wraps,
yielding -106750. -/
theorem c2_days_remaining_rounding :
    (∀ s : Nat, s ≤ 9223285637 → tlDaysOf ((s : Int) * 1000000000) =
      ceilDivSpec ((s : Int) * 1000000000) (86400 * 1000000000)) ∧
    tlDaysOf (86400 * 1000000000) = 1 ∧
    tlDaysOf (1 * 1000000000) = 1 ∧
    tlDaysOf (9223372036 * 1000000000) = -106750 := by
  refine ⟨?_, by decide, by decide, by decide⟩
  intro s hs
  unfold tlDaysOf ceilDivSpec
  have h : (s : Int) * 1000000000 + 86399 * 1000000000 =
      ((s * 1000000000 + 86399000000000 : Nat) : Int) := by push_cast; ring
  rw [h, wrap64_of_small _ (by positivity) (by push_cast; omega)]
  have h2 : (86400 * 1000000000 : Int) = ((86400000000000 : Nat) : Int) := by norm_num
  rw [h2, tdiv_ofNat]
  omega

/-- Witness for C2 instantiating the whole-second case at 5 days exactly. -/
theorem c2_days_remaining_rounding_witness :
    tlDaysOf ((432000 : Nat) * 1000000000) =
      ceilDivSpec ((432000 : Nat) * 1000000000) (86400 * 1000000000) :=
  c2_days_remaining_rounding.1 432000 (by decide)

/-- Claim C2 counterexample: for a certificate expired exactly two days ago
(remaining duration -172800 seconds) the code computes -1 days (truncation
toward zero) while the mathematical ceiling is -2, so the computation does not
equal `ceil((notAfter - now) / 1 day)` for every timestamp pair. -/
theorem c2_days_remaining_counterexample :
    tlDaysOf ((-172800) * 1000000000) = -1 ∧
    ceilDivSpec ((-172800) * 1000000000) (86400 * 1000000000) = -2 ∧
    tlDaysOf ((-172800) * 1000000000) ≠
      ceilDivSpec ((-172800) * 1000000000) (86400 * 1000000000) := by
  refine ⟨by decide, by decide, by decide⟩

/-- Claim C7: `Done` terminates the process with an exit code equal to the
numeric value of the final status, and those values are OK 0, WARNING 1,
CRITICAL 2, UNKNOWN 3 (the `iota` order of the constants). -/
theorem c7_exit_code_mapping :
    (∀ p : Plugin, (Plugin.done p).2 = p.status.toCode) ∧
    Status.toCode .OK = 0 ∧ Status.toCode .WARNING = 1 ∧
    Status.toCode .CRITICAL = 2 ∧ Status.toCode .UNKNOWN = 3 :=
  ⟨fun _ => rfl, rfl, rfl, rfl, rfl⟩

/-- Witness for C7 at a freshly created plugin (status UNKNOWN, exit code 3). -/
theorem c7_exit_code_mapping_witness :
    (Plugin.done (Plugin.new "Certificate check")).2 =
      (Plugin.new "Certificate check").status.toCode :=
  c7_exit_code_mapping.1 (Plugin.new "Certificate check")

/-- Unfolding of the extra-names loop of `checkNames`: the verdict is the
conjunction of the incoming flag with "every name found", and one finding line
is appended for each missing name, in order. -/
theorem checkExtraNames_spec (cert : Certificate) (names : List String) (p : Plugin)
    (ok : Bool) :
    checkExtraNames cert names p ok =
      (ok && names.all (nameFound cert),
       { p with extraText := p.extraText ++ missingLines cert names }) := by
  induction names generalizing p ok with
  | nil => simp [checkExtraNames, missingLines]
  | cons n rest ih =>
    by_cases h : nameFound cert n
    · simp [checkExtraNames, checkHostName, h, ih, missingLines, Bool.and_comm]
    · simp [checkExtraNames, checkHostName, h, ih, missingLines, Plugin.addLine]

/-- Normal form of `checkNames` on a certificate with a non-empty SAN list. -/
theorem checkNames_nonempty (flags : ProgramFlags) (cert : Certificate) (p : Plugin)
    (h : cert.dnsNames.isEmpty = false) :
    checkNames flags cert p =
      (if (flags.hostname :: flags.extraNames).all (nameFound cert) then
        (true, { p with extraText := p.extraText ++ missingLines cert (flags.hostname :: flags.extraNames) })
      else
        (false, { p with extraText := p.extraText ++ missingLines cert (flags.hostname :: flags.extraNames),
                         status := .CRITICAL, message := "names missing from SAN domain names" })) := by
  by_cases h0 : nameFound cert flags.hostname <;>
  by_cases hrest : flags.extraNames.all (nameFound cert) <;>
  simp [checkNames, h, checkHostName, h0, hrest, checkExtraNames_spec, missingLines,
    Plugin.setState, Plugin.addLine]

/-- Claim C3 (amended): on a certificate with a non-empty SAN list, every
requested name (the primary hostname and each additional name) is tested by
comparing the lowercased SAN entries for equality with the requested name as
given — case-insensitive for the primary hostname, which `checkFlags` has
already lowercased, while an additional name matches only if it is written in
lowercase form. Every missing name is recorded as a finding line, all names
are evaluated in one pass, and the verdict is CRITICAL exactly when at least
one name was missing (a fully matched certificate leaves the plugin state
untouched). With SAN [a.example, b.example], primary a.example and additional
c.example, the outcome is CRITICAL with a finding line for c.example only. -/
theorem c3_san_names_check :
    (∀ (flags : ProgramFlags) (cert : Certificate) (p : Plugin), cert.dnsNames ≠ [] →
      ((checkNames flags cert p).1 =
        (flags.hostname :: flags.extraNames).all (nameFound cert)) ∧
      ((checkNames flags cert p).2.extraText =
        p.extraText ++ missingLines cert (flags.hostname :: flags.extraNames)) ∧
      ((flags.hostname :: flags.extraNames).all (nameFound cert) = false →
        (checkNames flags cert p).2.status = .CRITICAL ∧
        (checkNames flags cert p).2.message = "names missing from SAN domain names") ∧
      ((flags.hostname :: flags.extraNames).all (nameFound cert) = true →
        (checkNames flags cert p).2 = p)) ∧
    (checkNames ⟨"a.example", 443, -1, -1, false, ["c.example"], ""⟩
        ⟨["a.example", "b.example"], "", 0⟩ (Plugin.new "Certificate check") =
      (false, ⟨"Certificate check", .CRITICAL, "names missing from SAN domain names",
                ["missing DNS name c.example in certificate"], []⟩)) := by
  constructor
  · intro flags cert p hne
    have h : cert.dnsNames.isEmpty = false := by
      cases hd : cert.dnsNames with
      | nil => exact absurd hd hne
      | cons a t => simp [hd]
    rw [checkNames_nonempty flags cert p h]
    by_cases hall : (flags.hostname :: flags.extraNames).all (nameFound cert)
    · have hml : missingLines cert (flags.hostname :: flags.extraNames) = [] := by
        simp only [List.all_eq_true] at hall
        simp only [missingLines, List.map_eq_nil_iff, List.filter_eq_nil_iff]
        intro a ha
        simp [hall a ha]
      simp [hall, hml]
    · rw [if_neg hall]
      simp only [Bool.not_eq_true] at hall
      simp [hall]
  · decide

/-- Witness for C3 at the claim's concrete configuration. -/
theorem c3_san_names_check_witness :
    (checkNames ⟨"a.example", 443, -1, -1, false, ["c.example"], ""⟩
        ⟨["a.example", "b.example"], "", 0⟩ (Plugin.new "Certificate check")).1 =
      ((⟨"a.example", 443, -1, -1, false, ["c.example"], ""⟩ : ProgramFlags).hostname ::
        (⟨"a.example", 443, -1, -1, false, ["c.example"], ""⟩ : ProgramFlags).extraNames).all
        (nameFound ⟨["a.example", "b.example"], "", 0⟩) :=
  (c3_san_names_check.1 ⟨"a.example", 443, -1, -1, false, ["c.example"], ""⟩
    ⟨["a.example", "b.example"], "", 0⟩ (Plugin.new "Certificate check") (by decide)).1

/-- Claim C3 counterexample: with SAN [a.example, C.example], primary
a.example and additional name C.example, every requested name matches some
SAN entry case-insensitively (the claim's criterion), yet the code reports
C.example as missing and returns a CRITICAL verdict, because an additional
name is compared verbatim against the lowercased SAN entries. -/
theorem c3_case_insensitive_counterexample :
    ((("a.example" : String) :: ["C.example"]).all
        (specNameFoundCaseInsensitive ⟨["a.example", "C.example"], "", 0⟩) = true) ∧
    (checkNames ⟨"a.example", 443, -1, -1, false, ["C.example"], ""⟩
        ⟨["a.example", "C.example"], "", 0⟩ (Plugin.new "Certificate check")).1 = false ∧
    (checkNames ⟨"a.example", 443, -1, -1, false, ["C.example"], ""⟩
        ⟨["a.example", "C.example"], "", 0⟩ (Plugin.new "Certificate check")).2.status =
      .CRITICAL ∧
    (checkNames ⟨"a.example", 443, -1, -1, false, ["C.example"], ""⟩
        ⟨["a.example", "C.example"], "", 0⟩ (Plugin.new "Certificate check")).2.extraText =
      ["missing DNS name C.example in certificate"] := by
  decide

/-- Claim C4: on a certificate with an empty SAN list, the check warns
("certificate doesn\x27t have SAN domain names") whenever the CN fallback flag
is unset or any additional names were requested, regardless of the CN;
otherwise the lowercased subject is compared against the leading
`cn=<hostname>,` prefix (the hostname having been lowercased by `checkFlags`,
the comparison is case-insensitive), a mismatch is CRITICAL "incorrect
certificate CN" and a match lets the check proceed. Subject
`CN=host.example,O=Org` with requested hostname `host.example` proceeds. -/
theorem c4_sanless_certificate :
    (∀ (flags : ProgramFlags) (cert : Certificate) (p : Plugin),
      flags.ignoreCnOnly = false ∨ flags.extraNames ≠ [] →
      checkSANlessCertificate flags cert p =
        (false, p.setState .WARNING "certificate doesn\x27t have SAN domain names")) ∧
    (∀ (flags : ProgramFlags) (cert : Certificate) (p : Plugin),
      flags.ignoreCnOnly = true → flags.extraNames = [] →
      strStartsWith (strToLower cert.subject) ("cn=" ++ flags.hostname ++ ",") = false →
      checkSANlessCertificate flags cert p =
        (false, p.setState .CRITICAL "incorrect certificate CN")) ∧
    (∀ (flags : ProgramFlags) (cert : Certificate) (p : Plugin),
      flags.ignoreCnOnly = true → flags.extraNames = [] →
      strStartsWith (strToLower cert.subject) ("cn=" ++ flags.hostname ++ ",") = true →
      checkSANlessCertificate flags cert p = (true, p)) ∧
    (∀ (flags : ProgramFlags) (cert : Certificate) (p : Plugin), cert.dnsNames = [] →
      checkNames flags cert p = checkSANlessCertificate flags cert p) ∧
    (∀ p : Plugin,
      checkSANlessCertificate ⟨"host.example", 443, -1, -1, true, [], ""⟩
        ⟨[], "CN=host.example,O=Org", 0⟩ p = (true, p)) := by
  refine ⟨?_, ?_, ?_, ?_, ?_⟩
  · intro flags cert p h
    rcases h with h | h
    · simp [checkSANlessCertificate, h]
    · have he : flags.extraNames.isEmpty = false := by
        cases hd : flags.extraNames with
        | nil => exact absurd hd h
        | cons a t => simp
      simp [checkSANlessCertificate, he]
  · intro flags cert p h1 h2 h3
    simp [checkSANlessCertificate, h1, h2, h3]
  · intro flags cert p h1 h2 h3
    simp [checkSANlessCertificate, h1, h2, h3]
  · intro flags cert p h
    simp [checkNames, h]
  · intro p
    have hc : strStartsWith (strToLower "CN=host.example,O=Org")
        "cn=host.example," = true := by decide
    simp [checkSANlessCertificate, hc]

/-- Witness for C4 at the claim's concrete subject and hostname. -/
theorem c4_sanless_certificate_witness :
    checkSANlessCertificate ⟨"host.example", 443, -1, -1, true, [], ""⟩
      ⟨[], "CN=host.example,O=Org", 0⟩ (Plugin.new "Certificate check") =
      (true, Plugin.new "Certificate check") :=
  c4_sanless_certificate.2.2.2.2 (Plugin.new "Certificate check")

/-- When `checkFlags` succeeds it returns the plugin untouched. -/
theorem checkFlags_true_plugin (flags : ProgramFlags) (p : Plugin)
    (h : (checkFlags flags p).1 = true) : (checkFlags flags p).2.2 = p := by
  unfold checkFlags at h ⊢
  split_ifs at h ⊢
  simp_all

/-- Claim C5: if the TLS peer presents zero certificates after a successful
handshake, the `PeerCertificates[0]` indexing shared by all three getters
panics, the panic unwinds `runCheck` without touching the plugin state, and
the deferred `close()` still runs `Plugin.Done` — deferred calls run during
panic unwinding and `os.Exit` preempts the runtime crash report — which
prints the UNKNOWN report of the pristine state and exits with code 3: the
check surfaces an UNKNOWN result rather than crashing, for every protocol
variant (direct TLS, SMTP STARTTLS, Sieve STARTTLS). -/
theorem c5_zero_certificates_unknown :
    extractPeerCertificate [] = .error .indexOutOfRange ∧
    (∀ (flags : ProgramFlags) (p : Plugin) (nowNs : Int),
      runCheck flags p (.presented []) nowNs = (p, some .indexOutOfRange)) ∧
    (∀ (flags : ProgramFlags) (nowNs : Int),
      (checkFlags flags (Plugin.new "Certificate check")).1 = true →
      mainCheck flags (.presented []) nowNs =
        (("Certificate check UNKNOWN: no status set", Status.UNKNOWN.toCode), true,
         some .indexOutOfRange)) ∧
    (∀ startTLS ∈ certGetterNames,
      mainCheck ⟨"host.example", 443, -1, -1, false, [], startTLS⟩ (.presented []) 0 =
        (("Certificate check UNKNOWN: no status set", 3), true,
         some .indexOutOfRange)) := by
  refine ⟨rfl, fun _ _ _ => rfl, ?_, ?_⟩
  · intro flags nowNs hcf
    have hp := checkFlags_true_plugin flags (Plugin.new "Certificate check") hcf
    simp only [mainCheck]
    rw [if_pos hcf]
    rw [show runCheck (checkFlags flags (Plugin.new "Certificate check")).2.1
        (checkFlags flags (Plugin.new "Certificate check")).2.2 (.presented []) nowNs =
        ((checkFlags flags (Plugin.new "Certificate check")).2.2,
         some .indexOutOfRange) from rfl]
    rw [hp]
    decide
  · intro st hst
    simp only [certGetterNames, List.mem_cons, List.mem_singleton,
      List.not_mem_nil, or_false] at hst
    rcases hst with h | h | h <;> subst h <;> decide

/-- Witness for C5 at the SMTP STARTTLS variant. -/
theorem c5_zero_certificates_unknown_witness :
    mainCheck ⟨"host.example", 443, -1, -1, false, [], "smtp"⟩ (.presented []) 0 =
      (("Certificate check UNKNOWN: no status set", Status.UNKNOWN.toCode), true,
       some .indexOutOfRange) :=
  c5_zero_certificates_unknown.2.2.1 ⟨"host.example", 443, -1, -1, false, [], "smtp"⟩ 0
    (by decide)

/-- Claim C8 (amended): when a hostname is given and the port is valid — the
two checks that run first — a configuration supplying both thresholds
(values different from the `-1` default) with the warning threshold not
strictly greater than the critical one makes `checkFlags` fail with UNKNOWN
"nonsensical thresholds", and the network fetch of `runCheck` is never
attempted. -/
theorem c8_nonsensical_thresholds :
    ∀ (flags : ProgramFlags) (fetch : FetchResult) (nowNs : Int),
      flags.hostname ≠ "" → 1 ≤ flags.port → flags.port ≤ 65535 →
      flags.warn ≠ -1 → flags.crit ≠ -1 → flags.warn ≤ flags.crit →
      mainCheck flags fetch nowNs =
        ((((Plugin.new "Certificate check").setState .UNKNOWN
          "nonsensical thresholds").done), false, none) := by
  intro flags fetch nowNs hh hp1 hp2 hw hc hwc
  have hport : ¬(flags.port < 1 ∨ 65535 < flags.port) := by omega
  have hthr : flags.warn ≠ -1 ∧ flags.crit ≠ -1 ∧ flags.warn ≤ flags.crit := ⟨hw, hc, hwc⟩
  simp only [mainCheck, checkFlags]
  rw [if_neg hh, if_neg hport, if_pos hthr]
  simp

/-- Witness for C8 at the claim's configuration warn 5, crit 10. -/
theorem c8_nonsensical_thresholds_witness :
    mainCheck ⟨"host.example", 443, 5, 10, false, [], ""⟩ (.presented []) 0 =
      ((((Plugin.new "Certificate check").setState .UNKNOWN
        "nonsensical thresholds").done), false, none) :=
  c8_nonsensical_thresholds ⟨"host.example", 443, 5, 10, false, [], ""⟩ (.presented []) 0
    (by decide) (by decide) (by decide) (by decide) (by decide) (by decide)

/-- Claim C8 counterexample: with an empty hostname, warn 5 and crit 10, both
thresholds are supplied and warn is not strictly greater than crit, yet the
UNKNOWN message is "no hostname specified" (the hostname check runs first),
not "nonsensical thresholds" — the claim does not hold for every such flag
configuration. No network fetch is attempted in either case. -/
theorem c8_thresholds_counterexample :
    mainCheck ⟨"", 443, 5, 10, false, [], ""⟩ (.presented []) 0 =
      ((((Plugin.new "Certificate check").setState .UNKNOWN
        "no hostname specified").done), false, none) ∧
    "no hostname specified" ≠ "nonsensical thresholds" := by
  refine ⟨rfl, by decide⟩

/-- Claim C6 (amended): a threshold value N attached to the "validity" metric
renders as the range string `:N` — `PDRMax` stores the start `"0"`, which the
range renderer omits — not as `~:N` (a `~` start is produced only for an
empty start string, which `PDRMax` never builds). -/
theorem c6_range_rendering :
    (∀ s : String, valueCheck s = true →
      (PDRMax s).map PerfDataRange.render = some (":" ++ s)) ∧
    (∀ (flags : ProgramFlags) (tlDays : Int), 0 < flags.crit → 0 < flags.warn →
      valueCheck (toString flags.crit) = true → valueCheck (toString flags.warn) = true →
      valueCheck (toString tlDays) = true →
      ∃ pd, setPerfData flags tlDays = some pd ∧ pd.label = "validity" ∧
        pd.crit.render = ":" ++ toString flags.crit ∧
        pd.warn.render = ":" ++ toString flags.warn) := by
  constructor
  · intro s h
    simp [PDRMax, h, PerfDataRange.render]
  · intro flags d hc hw h1 h2 h3
    simp [setPerfData, PerfData.new, PDRMax, h1, h2, h3, hc, hw,
      PerfData.setCrit, PerfData.setWarn, PerfDataRange.render]

/-- Witness for C6 with crit 5, warn 10 and 30 days left. -/
theorem c6_range_rendering_witness :
    ∃ pd, setPerfData ⟨"host.example", 443, 10, 5, false, [], ""⟩ 30 = some pd ∧
      pd.label = "validity" ∧ pd.crit.render = ":" ++ toString (5 : Int) ∧
      pd.warn.render = ":" ++ toString (10 : Int) :=
  c6_range_rendering.2 ⟨"host.example", 443, 10, 5, false, [], ""⟩ 30
    (by decide) (by decide) (by decide) (by decide) (by decide)

/-- Claim C6 counterexample: with criticalDays 5 and warningDays 10 the ranges
attached to the "validity" metric render as `:5` and `:10`, not `~:5`; the
claimed `~:N` rendering never occurs for `PDRMax`-built ranges. -/
theorem c6_range_rendering_counterexample :
    ((setPerfData ⟨"host.example", 443, 10, 5, false, [], ""⟩ 30).map
        (fun pd => pd.crit.render) = some ":5") ∧
    ((setPerfData ⟨"host.example", 443, 10, 5, false, [], ""⟩ 30).map
        (fun pd => pd.crit.render) ≠ some "~:5") ∧
    ((setPerfData ⟨"host.example", 443, 10, 5, false, [], ""⟩ 30).map
        (fun pd => pd.warn.render) = some ":10") := by
  refine ⟨by decide, by decide, by decide⟩

/-- Acceptance of a three-digit expected code in `net/textproto.ReadResponse`
is exact equality; 220 is three-digit. -/
theorem respMatches_220 (c : Nat) : respMatches 220 c = (c == 220) := by
  unfold respMatches
  rw [if_neg (by omega), if_neg (by omega), if_pos (by omega)]

/-- Acceptance of the three-digit expected code 250 is exact equality. -/
theorem respMatches_250 (c : Nat) : respMatches 250 c = (c == 250) := by
  unfold respMatches
  rw [if_neg (by omega), if_neg (by omega), if_pos (by omega)]

/-- Normal form of the SMTP preamble as a decision tree on the three response
codes. -/
theorem smtpPreamble_eq (g h s : Response) :
    smtpPreamble g h s =
      (if g.code = 220 then
        (if h.code = 250 then
          (if s.code = 220 then (["HELO localhost", "STARTTLS"], .ok ())
           else (["HELO localhost", "STARTTLS"], .error s))
         else (["HELO localhost"], .error h))
       else ([], .error g)) := by
  by_cases hg : g.code = 220 <;> by_cases hh : h.code = 250 <;> by_cases hs : s.code = 220 <;>
    simp [smtpPreamble, readResponse, respMatches_220, respMatches_250, hg, hh, hs]

/-- Claim C9: the SMTP preamble reads the greeting expecting 220, sends
`HELO localhost` expecting 250, sends `STARTTLS` expecting 220, and reaches
the TLS handshake exactly when all three codes match; the first unexpected
status code aborts with an error carrying the offending response, before the
handshake. -/
theorem c9_smtp_preamble :
    ∀ greeting helo starttls : Response,
      (greeting.code = 220 → helo.code = 250 → starttls.code = 220 →
        smtpPreamble greeting helo starttls = (["HELO localhost", "STARTTLS"], .ok ())) ∧
      (greeting.code ≠ 220 →
        smtpPreamble greeting helo starttls = ([], .error greeting)) ∧
      (greeting.code = 220 → helo.code ≠ 250 →
        smtpPreamble greeting helo starttls = (["HELO localhost"], .error helo)) ∧
      (greeting.code = 220 → helo.code = 250 → starttls.code ≠ 220 →
        smtpPreamble greeting helo starttls =
          (["HELO localhost", "STARTTLS"], .error starttls)) ∧
      ((smtpPreamble greeting helo starttls).2 = .ok () ↔
        (greeting.code = 220 ∧ helo.code = 250 ∧ starttls.code = 220)) := by
  intro g h s
  refine ⟨?_, ?_, ?_, ?_, ?_⟩
  · intro h1 h2 h3
    rw [smtpPreamble_eq]
    simp [h1, h2, h3]
  · intro h1
    rw [smtpPreamble_eq]
    simp [h1]
  · intro h1 h2
    rw [smtpPreamble_eq]
    simp [h1, h2]
  · intro h1 h2 h3
    rw [smtpPreamble_eq]
    simp [h1, h2, h3]
  · rw [smtpPreamble_eq]
    by_cases h1 : g.code = 220 <;> by_cases h2 : h.code = 250 <;>
      by_cases h3 : s.code = 220 <;> simp [h1, h2, h3]

/-- Witness for C9 at a compliant server script. -/
theorem c9_smtp_preamble_witness :
    smtpPreamble ⟨220, "service ready"⟩ ⟨250, "ok"⟩ ⟨220, "go ahead"⟩ =
      (["HELO localhost", "STARTTLS"], .ok ()) :=
  (c9_smtp_preamble ⟨220, "service ready"⟩ ⟨250, "ok"⟩ ⟨220, "go ahead"⟩).1 rfl rfl rfl

/-- When no line carries an `OK`, `NO ` or `BYE ` marker and the stream ends
without a read error, `waitOK` returns success. -/
theorem waitOK_no_marker (lines : List String)
    (h : ∀ l ∈ lines, strStartsWith l "OK" = false ∧ strStartsWith l "NO " = false ∧
      strStartsWith l "BYE " = false) :
    waitOK lines none = .ok () := by
  induction lines with
  | nil => rfl
  | cons l rest ih =>
    have hl := h l (List.mem_cons_self l rest)
    have hrest := ih (fun x hx => h x (List.mem_cons_of_mem _ hx))
    simp [waitOK, hl.1, hl.2.1, hl.2.2, hrest]

/-- Claim C10: in the Sieve preamble, a stage whose stream ends (EOF with no
read error) before any `OK`, `NO ` or `BYE ` line is treated as a success —
`waitOK` returns the scanner's nil error — so negotiation proceeds to sending
`STARTTLS` and then to the TLS handshake. -/
theorem c10_sieve_eof_success :
    ∀ greetingLines starttlsLines : List String,
      (∀ l ∈ greetingLines, strStartsWith l "OK" = false ∧
        strStartsWith l "NO " = false ∧ strStartsWith l "BYE " = false) →
      (∀ l ∈ starttlsLines, strStartsWith l "OK" = false ∧
        strStartsWith l "NO " = false ∧ strStartsWith l "BYE " = false) →
      waitOK greetingLines none = .ok () ∧
      sievePreamble greetingLines starttlsLines none none = (["STARTTLS"], .ok ()) := by
  intro gl sl hg hs
  have h1 := waitOK_no_marker gl hg
  have h2 := waitOK_no_marker sl hs
  exact ⟨h1, by simp [sievePreamble, h1, h2]⟩

/-- Witness for C10: a greeting stage that ends after one unmarked line and an
immediately-closed STARTTLS stage both count as successes. -/
theorem c10_sieve_eof_success_witness :
    waitOK ["foo bar"] none = .ok () ∧
    sievePreamble ["foo bar"] [] none none = (["STARTTLS"], .ok ()) :=
  c10_sieve_eof_success ["foo bar"] [] (by decide) (by decide)
